import Mathlib

/-!
Verification of the WhatsApp gateway server (`src/index.ts`).

The module-level mutable state of the server and its handlers are embedded
as pure Lean functions.  The coordinator-level behaviour (socket creation,
the `connection.update` listener, `setTimeout` retry scheduling, the
`/api/logout`, `/api/status` and `/api/send-message` routes) is modelled as
a step function over an explicit state, with events carrying the data the
external library (baileys, express) would supply.
-/

/-- The remote account object the protocol library attaches to a socket
(`sock.user` in the source); only its `id` field is read. -/
structure WAUser where
  id : String
deriving DecidableEq

/-- A protocol-client socket handle (`makeWASocket` result).  `hid` identifies
the handle; `user` is the account the library reports for it. -/
structure SockHandle where
  hid : Nat
  user : Option WAUser
deriving DecidableEq

/-- The module-level mutable variables of `src/index.ts`:
`let sock`, `let qrCode`, `let isConnected`, `let phoneNumber`. -/
structure ServerState where
  sock : Option SockHandle
  qrCode : Option String
  isConnected : Bool
  phoneNumber : Option String
deriving DecidableEq

/-- Initial values of the module-level variables (`null`, `null`, `false`, `null`). -/
def initServerState : ServerState :=
  { sock := none, qrCode := none, isConnected := false, phoneNumber := none }

namespace QRCode

/-- Stand-in for the external `QRCode.toDataURL`; the server only stores the
returned data URL and tests its truthiness, so the exact encoding is
irrelevant.  Data URLs are never the empty string. -/
def toDataURL (qr : String) : String := "data:image/png;base64," ++ qr

end QRCode

/-- `DisconnectReason.loggedOut` from the baileys library (HTTP 401). -/
def DisconnectReason.loggedOut : Nat := 401

/-- `user.id.split(':')[0]` from the source: the part of the id before the
first colon (the whole id when there is none), i.e. the longest prefix free
of `':'`. -/
def splitColonFirst (s : String) : String :=
  String.mk (s.data.takeWhile (fun c => c ≠ ':'))

/-- The `connection` field of a `connection.update` event: the string
`'close'` (with the Boom status code of `lastDisconnect.error`, absent when
no error is attached) or the string `'open'`. -/
inductive ConnStatus where
  | closed (statusCode : Option Nat)
  | opened
deriving DecidableEq

/-- A `connection.update` payload: optional `connection` transition and
optional `qr` string. -/
structure ConnUpdate where
  connection : Option ConnStatus
  qr : Option String
deriving DecidableEq

/-- The `connection.update` listener body (src/index.ts lines 62-101), as a
function of the current module state.  Returns the new module state and
whether `setTimeout(connectToWhatsApp, 5000)` was called.

Source order: the `qr` field is handled first; then `close` clears
`isConnected`, `phoneNumber`, `qrCode` and computes `shouldReconnect` as
`statusCode !== DisconnectReason.loggedOut`; `open` sets `isConnected`,
clears `qrCode` and reads `sock?.user` — the current global socket, not the
socket that emitted the event — to derive `phoneNumber`. -/
def onConnectionUpdate (s : ServerState) (u : ConnUpdate) : ServerState × Bool :=
  let s1 : ServerState :=
    match u.qr with
    | some q => { s with qrCode := some (QRCode.toDataURL q) }
    | none => s
  match u.connection with
  | some (ConnStatus.closed statusCode) =>
      let s2 := { s1 with isConnected := false, phoneNumber := none, qrCode := none }
      let shouldReconnect : Bool := decide (statusCode ≠ some DisconnectReason.loggedOut)
      (s2, shouldReconnect)
  | some ConnStatus.opened =>
      let s2 := { s1 with isConnected := true, qrCode := none }
      let s3 :=
        match s2.sock with
        | some h =>
            match h.user with
            | some user => { s2 with phoneNumber := some (splitColonFirst user.id) }
            | none => s2
        | none => s2
      (s3, false)
  | none => (s1, false)

/-- The `GET /api/status` response `{connected, phone, hasQR}` (lines 110-116).
`hasQR` is `!!qrCode`; `qrCode` is only ever `null` or a non-empty data URL,
so truthiness coincides with presence. -/
structure StatusResp where
  connected : Bool
  phone : Option String
  hasQR : Bool
deriving DecidableEq

/-- The `GET /api/status` handler: a pure read of the module state. -/
def statusHandler (s : ServerState) : StatusResp :=
  { connected := s.isConnected, phone := s.phoneNumber, hasQR := s.qrCode.isSome }

/-- The `POST /api/logout` handler (lines 249-269).  `logoutOk` is whether
`await sock.logout()` completes without throwing; `rmOk` whether the
auth-folder check/removal does.  With a socket held: if `sock.logout()`
throws, the catch at line 265 runs before any assignment, so the handle and
the snapshot survive and the response is the 500 error (`false`); if it
completes, `sock` is discarded and the module state cleared, after which the
folder removal may still throw (500, state already cleared) or the route
answers `{success:true}`.  With no socket the whole `if` body is skipped and
the response is `{success:true}`. -/
def logoutHandler (s : ServerState) (logoutOk rmOk : Bool) : ServerState × Bool :=
  match s.sock with
  | some _ =>
      if logoutOk = false then (s, false)
      else if rmOk = false then (initServerState, false)
      else (initServerState, true)
  | none => (s, true)

/-- One element of the array returned by `sock.onWhatsApp(phone)`:
`exists_` models the `exists` field (a Lean keyword), `jid` the resolved
address. -/
structure OnWAResult where
  exists_ : Bool
  jid : String
deriving DecidableEq

/-- Responses of `POST /api/send-message`:
400 missing fields, 503 not connected, 404 unregistered, 500 send threw,
200 success. -/
inductive SendResp where
  | badRequest
  | notConnected
  | notRegistered
  | sendFailed
  | ok
deriving DecidableEq

/-- What a run of the send-message handler did: the module state it leaves
behind, the HTTP response, the argument of the `onWhatsApp` call when one
was made, and the `(jid, text)` of the `sendMessage` call when one was
issued. -/
structure SendOutcome where
  state : ServerState
  resp : SendResp
  checkIssued : Option String
  sendIssued : Option (String × String)
deriving DecidableEq

/-- The `POST /api/send-message` handler (lines 215-246).  `results` is the
array `sock.onWhatsApp(phone)` returns; `sendOk` is whether
`sock.sendMessage(result.jid, ...)` completes without throwing.

Source order: falsy-field check (`!phone || !message`, the empty string is
falsy), then `!isConnected || !sock`, then the local `jid` (computed but
never used afterwards: the send uses `result.jid`), then the registration
check on the raw `phone`, then `!result?.exists`, then the send. -/
def sendMessageHandler (s : ServerState) (phone message : String)
    (results : List OnWAResult) (sendOk : Bool) : SendOutcome :=
  if phone = "" ∨ message = "" then
    { state := s, resp := SendResp.badRequest, checkIssued := none, sendIssued := none }
  else if s.isConnected = false ∨ s.sock = none then
    { state := s, resp := SendResp.notConnected, checkIssued := none, sendIssued := none }
  else
    let _jid := if phone.contains '@' then phone else phone ++ "@s.whatsapp.net"
    match results.head? with
    | none =>
        { state := s, resp := SendResp.notRegistered, checkIssued := some phone,
          sendIssued := none }
    | some result =>
        if result.exists_ = false then
          { state := s, resp := SendResp.notRegistered, checkIssued := some phone,
            sendIssued := none }
        else if sendOk then
          { state := s, resp := SendResp.ok, checkIssued := some phone,
            sendIssued := some (result.jid, message) }
        else
          { state := s, resp := SendResp.sendFailed, checkIssued := some phone,
            sendIssued := some (result.jid, message) }

/-- Coordinator-level state: the module variables plus the bookkeeping the
source leaves implicit in the JavaScript runtime: `live` is the set of
socket handles created so far (their `connection.update` listeners stay
attached for the life of the process — the source never removes them);
`pendingRetries` counts `setTimeout(connectToWhatsApp, 5000)` callbacks
scheduled and not yet fired (the source stores no timer id, so nothing can
cancel them); `loggedOutState` is a ghost flag marking the close branch
that schedules no retry — the specification's terminal `LoggedOut` state. -/
structure CoordState where
  server : ServerState
  live : List Nat
  pendingRetries : Nat
  loggedOutState : Bool
deriving DecidableEq

/-- Coordinator state at process start. -/
def initCoord : CoordState :=
  { server := initServerState, live := [], pendingRetries := 0, loggedOutState := false }

/-- `connectToWhatsApp` (lines 46-105): creates a fresh socket, stores it in
the global `sock`, and registers its listeners (the handle id joins `live`).
Valid from `Idle`/`LoggedOut` per the spec, so the ghost flag clears. -/
def startClient (c : CoordState) (h : SockHandle) : CoordState :=
  { c with server := { c.server with sock := some h },
           live := c.live ++ [h.hid],
           loggedOutState := false }

/-- Events and commands reaching the coordinator.  `update hid u` is a
`connection.update` emitted by socket `hid` (every listener ever registered
runs the same body over the same globals, so the event is processed whenever
`hid` was created, current handle or not).  `retryFire h` is a scheduled
`setTimeout` callback firing, which runs `connectToWhatsApp` producing
handle `h`.  `logoutCmd` and `sendCmd` carry the outcomes of the remote
calls the route makes, making the step function self-contained. -/
inductive Ev where
  | start (h : SockHandle)
  | update (hid : Nat) (u : ConnUpdate)
  | retryFire (h : SockHandle)
  | logoutCmd (logoutOk rmOk : Bool)
  | sendCmd (results : List OnWAResult) (sendOk : Bool) (phone message : String)
deriving DecidableEq

/-- One coordinator step. -/
def step (c : CoordState) (e : Ev) : CoordState :=
  match e with
  | Ev.start h => startClient c h
  | Ev.update hid u =>
      if hid ∈ c.live then
        let r := onConnectionUpdate c.server u
        { c with server := r.1,
                 pendingRetries := c.pendingRetries + (if r.2 then 1 else 0),
                 loggedOutState :=
                   match u.connection with
                   | some (ConnStatus.closed _) =>
                       if r.2 then c.loggedOutState else true
                   | _ => c.loggedOutState }
      else c
  | Ev.retryFire h =>
      if 0 < c.pendingRetries then
        startClient { c with pendingRetries := c.pendingRetries - 1 } h
      else c
  | Ev.logoutCmd logoutOk rmOk =>
      { c with server := (logoutHandler c.server logoutOk rmOk).1 }
  | Ev.sendCmd results sendOk phone message =>
      { c with server := (sendMessageHandler c.server phone message results sendOk).state }

/-- Run a sequence of events from a coordinator state. -/
def runFrom (c : CoordState) (es : List Ev) : CoordState :=
  es.foldl step c

/-- Run a sequence of events from process start. -/
def runTrace (es : List Ev) : CoordState :=
  runFrom initCoord es

/-- A sequence of bare close events from socket `hid` with the given
status codes. -/
def closeTrace (c : CoordState) (hid : Nat) (rs : List (Option Nat)) : CoordState :=
  runFrom c (rs.map (fun r => Ev.update hid { connection := some (ConnStatus.closed r), qr := none }))

/-! ## Basic step lemmas -/

/-- A close event from a live socket with a retryable (non-`loggedOut`)
status code: the snapshot is cleared and one retry is scheduled. -/
lemma step_close_retry (c : CoordState) (hid : Nat) (r : Option Nat)
    (hlive : hid ∈ c.live) (hr : r ≠ some DisconnectReason.loggedOut) :
    step c (Ev.update hid { connection := some (ConnStatus.closed r), qr := none }) =
      { c with
        server := { c.server with isConnected := false, phoneNumber := none, qrCode := none },
        pendingRetries := c.pendingRetries + 1 } := by
  simp [step, onConnectionUpdate, hlive, hr]

/-- A close event from a live socket with the `loggedOut` status code: the
snapshot is cleared, no retry is scheduled, the terminal state is entered. -/
lemma step_close_loggedOut (c : CoordState) (hid : Nat)
    (hlive : hid ∈ c.live) :
    step c (Ev.update hid
        { connection := some (ConnStatus.closed (some DisconnectReason.loggedOut)), qr := none }) =
      { c with
        server := { c.server with isConnected := false, phoneNumber := none, qrCode := none },
        loggedOutState := true } := by
  simp [step, onConnectionUpdate, hlive]

lemma closeTrace_nil (c : CoordState) (hid : Nat) : closeTrace c hid [] = c := rfl

lemma closeTrace_cons (c : CoordState) (hid : Nat) (r : Option Nat) (rs : List (Option Nat)) :
    closeTrace c hid (r :: rs) =
      closeTrace (step c (Ev.update hid { connection := some (ConnStatus.closed r), qr := none }))
        hid rs := rfl

/-- A sequence of retryable close events from a live socket adds one pending
retry per event and leaves the ghost terminal flag untouched. -/
lemma closeTrace_retry_all (hid : Nat) (rs : List (Option Nat))
    (hr : ∀ r ∈ rs, r ≠ some DisconnectReason.loggedOut) :
    ∀ c : CoordState, hid ∈ c.live →
      (closeTrace c hid rs).pendingRetries = c.pendingRetries + rs.length ∧
        (closeTrace c hid rs).loggedOutState = c.loggedOutState := by
  induction rs with
  | nil => intro c _; simp [closeTrace_nil]
  | cons r rs ih =>
      intro c hc
      rw [closeTrace_cons, step_close_retry c hid r hc (hr r (by simp))]
      obtain ⟨h2a, h2b⟩ := ih (fun x hx => hr x (by simp [hx]))
        { c with
          server :=
            { c.server with isConnected := false, phoneNumber := none, qrCode := none },
          pendingRetries := c.pendingRetries + 1 } hc
      constructor
      · rw [h2a]
        show c.pendingRetries + 1 + rs.length = c.pendingRetries + (r :: rs).length
        simp only [List.length_cons]
        omega
      · exact h2b

/-- C1.  A close event with a status code other than `DisconnectReason.loggedOut`
schedules exactly one retry (one `setTimeout(connectToWhatsApp, 5000)`), and
over a whole sequence of such close events the coordinator never enters the
terminal LoggedOut branch; a close event carrying `DisconnectReason.loggedOut`
enters the LoggedOut branch and schedules no retry. -/
theorem c1_close_retry_policy :
    (∀ (c : CoordState) (hid : Nat) (rs : List (Option Nat)),
        hid ∈ c.live →
        (∀ r ∈ rs, r ≠ some DisconnectReason.loggedOut) →
        (closeTrace c hid rs).pendingRetries = c.pendingRetries + rs.length ∧
          ∀ n, (closeTrace c hid (rs.take n)).loggedOutState = c.loggedOutState) ∧
    (∀ (c : CoordState) (hid : Nat),
        hid ∈ c.live →
        (closeTrace c hid [some DisconnectReason.loggedOut]).loggedOutState = true ∧
          (closeTrace c hid [some DisconnectReason.loggedOut]).pendingRetries =
            c.pendingRetries) := by
  constructor
  · intro c hid rs hc hr
    refine ⟨(closeTrace_retry_all hid rs hr c hc).1, ?_⟩
    intro n
    exact (closeTrace_retry_all hid (rs.take n)
      (fun x hx => hr x (List.take_subset n rs hx)) c hc).2
  · intro c hid hc
    rw [closeTrace_cons, closeTrace_nil, step_close_loggedOut c hid hc]
    exact ⟨rfl, rfl⟩

/-- Witness for C1 at a concrete state with one live socket. -/
theorem c1_close_retry_policy_witness :
    (0 ∈ (startClient initCoord { hid := 0, user := none }).live) ∧
    (closeTrace (startClient initCoord { hid := 0, user := none }) 0
        [some 500, none]).pendingRetries =
      (startClient initCoord { hid := 0, user := none }).pendingRetries + 2 ∧
    (closeTrace (startClient initCoord { hid := 0, user := none }) 0
        ([some 500, none].take 1)).loggedOutState =
      (startClient initCoord { hid := 0, user := none }).loggedOutState ∧
    (closeTrace (startClient initCoord { hid := 0, user := none }) 0
        [some DisconnectReason.loggedOut]).loggedOutState = true :=
  ⟨by decide,
   (c1_close_retry_policy.1 _ 0 [some 500, none] (by decide) (by decide)).1,
   (c1_close_retry_policy.1 _ 0 [some 500, none] (by decide) (by decide)).2 1,
   (c1_close_retry_policy.2 _ 0 (by decide)).1⟩

/-- C2.  After an `open` event, while the current socket reports a user, the
status snapshot shows `connected = true`, the phone derived from that user's
id, and no QR; after any subsequent `close` event the snapshot shows
`connected = false` with phone and QR absent. -/
theorem c2_status_open_then_close :
    (∀ (c : CoordState) (hid : Nat) (h : SockHandle) (u : WAUser),
        hid ∈ c.live → c.server.sock = some h → h.user = some u →
        statusHandler
            (step c (Ev.update hid { connection := some ConnStatus.opened, qr := none })).server =
          { connected := true, phone := some (splitColonFirst u.id), hasQR := false }) ∧
    (∀ (c : CoordState) (hid : Nat) (r : Option Nat),
        hid ∈ c.live →
        statusHandler
            (step c
              (Ev.update hid { connection := some (ConnStatus.closed r), qr := none })).server =
          { connected := false, phone := none, hasQR := false }) := by
  constructor
  · intro c hid h u hc hsock huser
    simp [step, onConnectionUpdate, statusHandler, hc, hsock, huser]
  · intro c hid r hc
    simp [step, onConnectionUpdate, statusHandler, hc]

/-- Witness for C2 at a concrete connected socket. -/
theorem c2_status_open_then_close_witness :
    statusHandler
        (step (startClient initCoord { hid := 0, user := some { id := "5551234:9@s.whatsapp.net" } })
          (Ev.update 0 { connection := some ConnStatus.opened, qr := none })).server =
      { connected := true, phone := some (splitColonFirst "5551234:9@s.whatsapp.net"),
        hasQR := false } ∧
    splitColonFirst "5551234:9@s.whatsapp.net" = "5551234" ∧
    statusHandler
        (step (startClient initCoord { hid := 0, user := some { id := "5551234:9@s.whatsapp.net" } })
          (Ev.update 0 { connection := some (ConnStatus.closed (some 500)), qr := none })).server =
      { connected := false, phone := none, hasQR := false } :=
  ⟨c2_status_open_then_close.1 _ 0 _ _ (by decide) rfl rfl,
   by decide,
   c2_status_open_then_close.2 _ 0 (some 500) (by decide)⟩

/-- C4.  With non-empty fields, while `isConnected` is false the
send-message handler answers 503 `NotConnected` without calling
`onWhatsApp` or `sendMessage` and without touching the state. -/
theorem c4_send_not_connected (s : ServerState) (phone message : String)
    (results : List OnWAResult) (sendOk : Bool)
    (hp : phone ≠ "") (hm : message ≠ "") (hnc : s.isConnected = false) :
    sendMessageHandler s phone message results sendOk =
      { state := s, resp := SendResp.notConnected, checkIssued := none,
        sendIssued := none } := by
  simp [sendMessageHandler, hp, hm, hnc]

/-- Witness for C4 at the idle initial state. -/
theorem c4_send_not_connected_witness :
    sendMessageHandler initServerState "5551234" "hola" [] true =
      { state := initServerState, resp := SendResp.notConnected, checkIssued := none,
        sendIssued := none } :=
  c4_send_not_connected initServerState "5551234" "hola" [] true (by decide) (by decide) rfl

/-- C3.  In the connected state with non-empty fields: an unregistered
target (empty `onWhatsApp` result or `exists:false`) yields 404
`RecipientNotRegistered` with no send issued; a registered target makes the
send go to the resolved `result.jid` (not the raw target), with success
reported exactly when the underlying send completes. -/
theorem c3_send_resolved (s : ServerState) (h : SockHandle) (phone message : String)
    (results : List OnWAResult) (sendOk : Bool)
    (hp : phone ≠ "") (hm : message ≠ "")
    (hconn : s.isConnected = true) (hsock : s.sock = some h) :
    (results.head? = none →
        (sendMessageHandler s phone message results sendOk).resp = SendResp.notRegistered ∧
        (sendMessageHandler s phone message results sendOk).sendIssued = none) ∧
    (∀ result, results.head? = some result → result.exists_ = false →
        (sendMessageHandler s phone message results sendOk).resp = SendResp.notRegistered ∧
        (sendMessageHandler s phone message results sendOk).sendIssued = none) ∧
    (∀ result, results.head? = some result → result.exists_ = true →
        (sendMessageHandler s phone message results sendOk).sendIssued =
          some (result.jid, message) ∧
        ((sendMessageHandler s phone message results sendOk).resp = SendResp.ok ↔
          sendOk = true)) := by
  refine ⟨?_, ?_, ?_⟩
  · intro hhead
    simp [sendMessageHandler, hp, hm, hconn, hsock, hhead]
  · intro result hhead hex
    simp [sendMessageHandler, hp, hm, hconn, hsock, hhead, hex]
  · intro result hhead hex
    cases hok : sendOk <;>
      simp [sendMessageHandler, hp, hm, hconn, hsock, hhead, hex, hok]

/-- Witness for C3: unregistered target `"5551234"` is refused with no send;
registered target is sent to the resolved jid. -/
theorem c3_send_resolved_witness :
    ((sendMessageHandler
        { sock := some { hid := 0, user := none }, qrCode := none, isConnected := true,
          phoneNumber := none } "5551234" "hola"
        [{ exists_ := false, jid := "x@s.whatsapp.net" }] true).resp =
          SendResp.notRegistered ∧
      (sendMessageHandler
        { sock := some { hid := 0, user := none }, qrCode := none, isConnected := true,
          phoneNumber := none } "5551234" "hola"
        [{ exists_ := false, jid := "x@s.whatsapp.net" }] true).sendIssued = none) ∧
    (sendMessageHandler
        { sock := some { hid := 0, user := none }, qrCode := none, isConnected := true,
          phoneNumber := none } "5551234" "hola"
        [{ exists_ := true, jid := "5551234@s.whatsapp.net" }] true).sendIssued =
      some ("5551234@s.whatsapp.net", "hola") :=
  ⟨(c3_send_resolved
      { sock := some { hid := 0, user := none }, qrCode := none, isConnected := true,
        phoneNumber := none } { hid := 0, user := none } "5551234" "hola"
      [{ exists_ := false, jid := "x@s.whatsapp.net" }] true
      (by decide) (by decide) rfl rfl).2.1
      { exists_ := false, jid := "x@s.whatsapp.net" } rfl rfl,
   ((c3_send_resolved
      { sock := some { hid := 0, user := none }, qrCode := none, isConnected := true,
        phoneNumber := none } { hid := 0, user := none } "5551234" "hola"
      [{ exists_ := true, jid := "5551234@s.whatsapp.net" }] true
      (by decide) (by decide) rfl rfl).2.2
      { exists_ := true, jid := "5551234@s.whatsapp.net" } rfl rfl).1⟩

/-- Every branch of the send-message handler leaves the module state as it
found it. -/
lemma sendMessageHandler_state_eq (s : ServerState) (phone message : String)
    (results : List OnWAResult) (sendOk : Bool) :
    (sendMessageHandler s phone message results sendOk).state = s := by
  unfold sendMessageHandler
  repeat' split
  all_goals rfl

/-- A send command is a no-op on the coordinator state. -/
lemma step_sendCmd_eq (c : CoordState) (results : List OnWAResult) (sendOk : Bool)
    (phone message : String) :
    step c (Ev.sendCmd results sendOk phone message) = c := by
  show { c with server := (sendMessageHandler c.server phone message results sendOk).state } = c
  rw [sendMessageHandler_state_eq]

/-- C10.  The send-message handler never changes any module variable
(snapshot fields or socket handle): the state it leaves is the state it was
given, both at the handler level and at the coordinator level. -/
theorem c10_send_frame :
    (∀ (s : ServerState) (phone message : String) (results : List OnWAResult) (sendOk : Bool),
        (sendMessageHandler s phone message results sendOk).state = s) ∧
    (∀ (c : CoordState) (results : List OnWAResult) (sendOk : Bool) (phone message : String),
        step c (Ev.sendCmd results sendOk phone message) = c) :=
  ⟨sendMessageHandler_state_eq, step_sendCmd_eq⟩

/-- C5 (code bug).  The `connection.update` listener reads and writes the
module-level globals with no check that the emitting socket is still the
current one, so a stale socket's close event is processed like any other:
here socket 0's late close event clears the snapshot that socket 1's open
had established and schedules a retry, instead of being ignored. -/
theorem c5_stale_close_processed :
    statusHandler
        (runTrace
          [Ev.start { hid := 0, user := some { id := "111:1@s.whatsapp.net" } },
           Ev.update 0 { connection := some ConnStatus.opened, qr := none },
           Ev.start { hid := 1, user := some { id := "222:2@s.whatsapp.net" } },
           Ev.update 1 { connection := some ConnStatus.opened, qr := none }]).server =
      { connected := true, phone := some "222", hasQR := false } ∧
    statusHandler
        (runTrace
          [Ev.start { hid := 0, user := some { id := "111:1@s.whatsapp.net" } },
           Ev.update 0 { connection := some ConnStatus.opened, qr := none },
           Ev.start { hid := 1, user := some { id := "222:2@s.whatsapp.net" } },
           Ev.update 1 { connection := some ConnStatus.opened, qr := none },
           Ev.update 0 { connection := some (ConnStatus.closed (some 500)), qr := none }]).server =
      { connected := false, phone := none, hasQR := false } ∧
    CoordState.pendingRetries
      (runTrace
        [Ev.start { hid := 0, user := some { id := "111:1@s.whatsapp.net" } },
         Ev.update 0 { connection := some ConnStatus.opened, qr := none },
         Ev.start { hid := 1, user := some { id := "222:2@s.whatsapp.net" } },
         Ev.update 1 { connection := some ConnStatus.opened, qr := none },
         Ev.update 0 { connection := some (ConnStatus.closed (some 500)), qr := none }]) = 1 := by
  decide

/-- C6 (code bug).  The retry is scheduled with a bare
`setTimeout(connectToWhatsApp, 5000)` whose timer id is never stored, and
the logout route never cancels it: after close-then-logout one retry is
still pending, and when it fires it installs a fresh socket even though the
session was logged out. -/
theorem c6_retry_survives_logout :
    (runTrace
        [Ev.start { hid := 0, user := none },
         Ev.update 0 { connection := some (ConnStatus.closed (some 500)), qr := none },
         Ev.logoutCmd true true]).pendingRetries = 1 ∧
    (runTrace
        [Ev.start { hid := 0, user := none },
         Ev.update 0 { connection := some (ConnStatus.closed (some 500)), qr := none },
         Ev.logoutCmd true true]).server.sock = none ∧
    (step
        (runTrace
          [Ev.start { hid := 0, user := none },
           Ev.update 0 { connection := some (ConnStatus.closed (some 500)), qr := none },
           Ev.logoutCmd true true])
        (Ev.retryFire { hid := 1, user := none })).server.sock =
      some { hid := 1, user := none } := by
  decide

/-- C7 counterexample.  After a close event carrying the terminal
`loggedOut` status code the coordinator still holds the old socket handle:
the close branch never assigns `sock = null`. -/
theorem c7_handle_kept_counterexample :
    (runTrace
        [Ev.start { hid := 0, user := none },
         Ev.update 0
          { connection := some (ConnStatus.closed (some DisconnectReason.loggedOut)),
            qr := none }]).server.sock = some { hid := 0, user := none } := by
  decide

/-- C7 amended.  The socket handle is destroyed on logout whenever
`sock.logout()` completes, even if the auth-folder removal then throws;
when `sock.logout()` throws, the route's catch runs before `sock = null`,
so the handle (and the whole snapshot) survives.  On a close event the
handle is retained unchanged — the `loggedOut`-reason close merely clears
the snapshot and schedules nothing. -/
theorem c7_handle_amended :
    (∀ (s : ServerState) (rm : Bool), (logoutHandler s true rm).1.sock = none) ∧
    (∀ (s : ServerState) (rm : Bool), s.sock ≠ none → (logoutHandler s false rm).1 = s) ∧
    (∀ (c : CoordState) (hid : Nat) (r : Option Nat), hid ∈ c.live →
        (step c (Ev.update hid { connection := some (ConnStatus.closed r), qr := none })).server.sock = c.server.sock ∧
        (r = some DisconnectReason.loggedOut →
          (step c (Ev.update hid { connection := some (ConnStatus.closed r), qr := none })).pendingRetries = c.pendingRetries)) := by
  refine ⟨?_, ?_, ?_⟩
  · intro s rm
    cases hs : s.sock <;> cases rm <;> simp [logoutHandler, hs, initServerState]
  · intro s rm _
    cases hs : s.sock <;> simp [logoutHandler, hs]
  · intro c hid r hl
    by_cases hr : r = some DisconnectReason.loggedOut
    · subst hr
      rw [step_close_loggedOut c hid hl]
      exact ⟨rfl, fun _ => rfl⟩
    · rw [step_close_retry c hid r hl hr]
      exact ⟨rfl, fun h => absurd h hr⟩

/-- Witness for C7 amended at a concrete state. -/
theorem c7_handle_amended_witness :
    (logoutHandler
        { sock := some { hid := 0, user := none }, qrCode := none, isConnected := true,
          phoneNumber := none } true true).1.sock = none ∧
    (logoutHandler
        { sock := some { hid := 0, user := none }, qrCode := none, isConnected := true,
          phoneNumber := none } false true).1 =
      { sock := some { hid := 0, user := none }, qrCode := none, isConnected := true,
        phoneNumber := none } ∧
    (0 ∈ (startClient initCoord { hid := 0, user := none }).live) ∧
    (step (startClient initCoord { hid := 0, user := none })
        (Ev.update 0
          { connection := some (ConnStatus.closed (some DisconnectReason.loggedOut)),
            qr := none })).server.sock =
      (startClient initCoord { hid := 0, user := none }).server.sock :=
  ⟨c7_handle_amended.1 _ true,
   c7_handle_amended.2.1 _ true (by decide),
   by decide,
   (c7_handle_amended.2.2 (startClient initCoord { hid := 0, user := none }) 0
      (some DisconnectReason.loggedOut) (by decide)).1⟩

/-- C9 counterexample.  Reachable state with no live handle but a non-idle
snapshot: logout discards the socket, then a stale QR event from the old
socket repopulates `qrCode`.  Two further logout calls in which nothing
throws both report success, yet the snapshot never returns to idle, because
the no-socket branch of the logout route skips the clearing entirely. -/
theorem c9_logout_counterexample :
    (logoutHandler
        (runTrace
          [Ev.start { hid := 0, user := none },
           Ev.logoutCmd true true,
           Ev.update 0 { connection := none, qr := some "x" }]).server true true).2 = true ∧
    (logoutHandler
        (logoutHandler
          (runTrace
            [Ev.start { hid := 0, user := none },
             Ev.logoutCmd true true,
             Ev.update 0 { connection := none, qr := some "x" }]).server true true).1
        true true).2 = true ∧
    (logoutHandler
        (logoutHandler
          (runTrace
            [Ev.start { hid := 0, user := none },
             Ev.logoutCmd true true,
             Ev.update 0 { connection := none, qr := some "x" }]).server true true).1
        true true).1.qrCode ≠ none := by
  decide

/-- C9 amended.  When neither `sock.logout()` nor the auth-folder removal
throws, two consecutive logout calls both report success and the second
leaves the state exactly where the first left it; when a live handle is
present the first such call resets the snapshot to idle; with no live
handle logout reports success but leaves the snapshot untouched (it does
not clear it).  When `sock.logout()` throws on a live handle, the route
reports the 500 error and changes nothing. -/
theorem c9_logout_amended (s : ServerState) :
    (logoutHandler s true true).2 = true ∧
    (logoutHandler (logoutHandler s true true).1 true true).2 = true ∧
    (logoutHandler (logoutHandler s true true).1 true true).1 =
      (logoutHandler s true true).1 ∧
    (s.sock ≠ none → (logoutHandler s true true).1 = initServerState) ∧
    (s.sock = none → (logoutHandler s true true).1 = s) ∧
    (∀ rm, s.sock ≠ none → logoutHandler s false rm = (s, false)) := by
  cases hs : s.sock <;> simp [logoutHandler, hs, initServerState]

/-- Witness for C9 amended, at a state with a handle (success and throwing
logout) and at the idle state. -/
theorem c9_logout_amended_witness :
    (logoutHandler
        { sock := some { hid := 0, user := none }, qrCode := none, isConnected := true,
          phoneNumber := none } true true).1 = initServerState ∧
    (logoutHandler initServerState true true).1 = initServerState ∧
    logoutHandler
        { sock := some { hid := 0, user := none }, qrCode := none, isConnected := true,
          phoneNumber := none } false true =
      ({ sock := some { hid := 0, user := none }, qrCode := none, isConnected := true,
         phoneNumber := none }, false) :=
  ⟨(c9_logout_amended
      { sock := some { hid := 0, user := none }, qrCode := none, isConnected := true,
        phoneNumber := none }).2.2.2.1 (by decide),
   (c9_logout_amended initServerState).2.2.2.2.1 rfl,
   (c9_logout_amended
      { sock := some { hid := 0, user := none }, qrCode := none, isConnected := true,
        phoneNumber := none }).2.2.2.2.2 true (by decide)⟩

/-- C8 counterexample.  A `connection.update` carrying only a `qr` payload
while the session is connected stores the QR code without touching
`isConnected`: the code reaches a state with `connected = true` and a
pending QR present, violating the stated invariant. -/
theorem c8_invariant_counterexample :
    (runTrace
        [Ev.start { hid := 0, user := none },
         Ev.update 0 { connection := some ConnStatus.opened, qr := none },
         Ev.update 0 { connection := none, qr := some "x" }]).server.isConnected = true ∧
    (runTrace
        [Ev.start { hid := 0, user := none },
         Ev.update 0 { connection := some ConnStatus.opened, qr := none },
         Ev.update 0 { connection := none, qr := some "x" }]).server.qrCode ≠ none := by
  decide

/-- The invariant of the claim: a connected snapshot carries no pending QR. -/
def qrInv (c : CoordState) : Prop :=
  c.server.isConnected = true → c.server.qrCode = none

/-- An event is QR-safe in a state when it is not a bare `qr`-only
`connection.update` (no `connection` transition) delivered while connected. -/
def qrSafeEv (c : CoordState) : Ev → Bool
  | Ev.update _ u =>
      if u.connection = none ∧ u.qr ≠ none then !c.server.isConnected else true
  | _ => true

/-- All events of the trace are QR-safe in the states where they arrive. -/
def qrSafeTrace (c : CoordState) : List Ev → Bool
  | [] => true
  | e :: es => qrSafeEv c e && qrSafeTrace (step c e) es

/-- An `open` transition always leaves `qrCode` cleared, whatever else the
update carries. -/
lemma onConnectionUpdate_opened_qrCode (s : ServerState) (uq : Option String) :
    ((onConnectionUpdate s { connection := some ConnStatus.opened, qr := uq }).1).qrCode =
      none := by
  obtain ⟨ssock, sqr, sconn, sphone⟩ := s
  unfold onConnectionUpdate
  cases uq <;> cases ssock <;> try rfl
  all_goals (rename_i h; obtain ⟨hh, hu⟩ := h; cases hu <;> rfl)

/-- Every QR-safe step preserves the invariant. -/
lemma qrInv_step (c : CoordState) (e : Ev) (hinv : qrInv c)
    (hsafe : qrSafeEv c e = true) : qrInv (step c e) := by
  cases e with
  | start h => intro hc; exact hinv hc
  | retryFire h =>
      by_cases hp : 0 < c.pendingRetries
      · simp only [step, if_pos hp]
        intro hc
        exact hinv hc
      · simp only [step, if_neg hp]
        exact hinv
  | logoutCmd lo rm =>
      cases hs : c.server.sock with
      | none =>
          simp only [step, logoutHandler, hs]
          exact hinv
      | some h =>
          cases lo with
          | false =>
              simp [step, logoutHandler, hs]
              exact hinv
          | true =>
              cases rm with
              | false =>
                  simp [step, logoutHandler, hs]
                  intro _
                  rfl
              | true =>
                  simp [step, logoutHandler, hs]
                  intro _
                  rfl
  | sendCmd results sendOk phone message =>
      rw [step_sendCmd_eq]
      exact hinv
  | update hid u =>
      by_cases hl : hid ∈ c.live
      · simp only [step, if_pos hl]
        obtain ⟨uc, uq⟩ := u
        cases uc with
        | none =>
            cases uq with
            | none => intro hc; exact hinv hc
            | some q =>
                intro hc
                exfalso
                have hnc : c.server.isConnected = false := by
                  simpa [qrSafeEv] using hsafe
                have hct : c.server.isConnected = true := hc
                rw [hnc] at hct
                exact Bool.false_ne_true hct
        | some cs =>
            cases cs with
            | closed r => intro _; rfl
            | opened => intro _; exact onConnectionUpdate_opened_qrCode c.server uq
      · simp only [step, if_neg hl]
        exact hinv

/-- The invariant is preserved along any QR-safe event sequence. -/
lemma qrInv_runFrom (es : List Ev) :
    ∀ c : CoordState, qrInv c → qrSafeTrace c es = true → qrInv (runFrom c es) := by
  induction es with
  | nil => intro c hinv _; exact hinv
  | cons e es ih =>
      intro c hinv hsafe
      rw [qrSafeTrace, Bool.and_eq_true] at hsafe
      exact ih (step c e) (qrInv_step c e hinv hsafe.1) hsafe.2

/-- C8 amended.  `connected = true` implies `pendingQR` absent in every
state reached from the initial idle state by an event sequence in which no
bare `qr`-only update is delivered while connected; a bare `qr` update
delivered while connected is the one step of the code that breaks the
invariant. -/
theorem c8_invariant_amended (es : List Ev)
    (hsafe : qrSafeTrace initCoord es = true)
    (hconn : (runTrace es).server.isConnected = true) :
    (runTrace es).server.qrCode = none :=
  qrInv_runFrom es initCoord (fun h => absurd h (by decide)) hsafe hconn

/-- Witness for C8 amended on a concrete QR-safe trace ending connected. -/
theorem c8_invariant_amended_witness :
    (qrSafeTrace initCoord
        [Ev.start { hid := 0, user := none },
         Ev.update 0 { connection := none, qr := some "x" },
         Ev.update 0 { connection := some ConnStatus.opened, qr := none }] = true) ∧
    (runTrace
        [Ev.start { hid := 0, user := none },
         Ev.update 0 { connection := none, qr := some "x" },
         Ev.update 0 { connection := some ConnStatus.opened, qr := none }]).server.isConnected
      = true ∧
    (runTrace
        [Ev.start { hid := 0, user := none },
         Ev.update 0 { connection := none, qr := some "x" },
         Ev.update 0 { connection := some ConnStatus.opened, qr := none }]).server.qrCode
      = none :=
  ⟨by decide, by decide,
   c8_invariant_amended
     [Ev.start { hid := 0, user := none },
      Ev.update 0 { connection := none, qr := some "x" },
      Ev.update 0 { connection := some ConnStatus.opened, qr := none }]
     (by decide) (by decide)⟩
